import Mathlib

/-!
Verification of the Serpent-to-OpenMC geometry translator in
`scripts/preprocessors/generate_geometry/_script_helpers.py`.

Modelling conventions, used throughout:

* A geometry-source line is modelled by its whitespace-separated token list
  (`Line := List String`), with the trailing `%`-comment already removed and the
  card starting at the head of the line.  The regex cores (`BC_REGEX_CORE`,
  `ROOT_REGEX_CORE`, `LAT_MULTILINE_REGEX`, ...) are modelled as predicates on
  such token lists; `re.search(...).group(0)` on a comment-free line spans the
  whole line (the `COMMENT_IGNORE_END_REGEX` tail `\s*[^%]*` extends the match
  to the line end), so the "card" recovered from a matching line is the full
  token list.
* Python machine floats are modelled as rationals; the numeric literals the
  cards carry are exact decimals, for which float arithmetic and rational
  arithmetic agree on every computation performed here.
* Python exceptions are modelled with `Except String`; the string carries the
  exception class and message.
* Mutable module-level registries (`surf_dict`, `cell_dict`, `mat_dict`,
  `universe_dict`, `universe_to_cell_names_dict`) are threaded explicitly as a
  `GeoState`; `openmc` object identity is modelled by allocation order: every
  `openmc.Universe()` / `openmc.Cell()` constructor call yields the next value
  of an allocation counter `next_uid`.
* The globals `surface_bc`, `n_bcs` and `root_name` read by
  `construct_openmc_cell` are never assigned inside `_script_helpers.py` (the
  shipped driver script is an unfinished draft); they are passed as a `GeoCtx`
  record, with `n_bcs = surface_bc.length` in every theorem, matching the
  documented contract of `get_boundary_conditions_and_root`.
-/

namespace SerpentHelpers

/-- A geometry-file line, as its whitespace token list (comments stripped). -/
abbrev Line := List String

/-! ## Exact numbers

The Python machine floats occurring in the translator are exact decimals, and
every arithmetic operation the translator performs on them (sums, differences,
products, halving) is exact in IEEE doubles for the magnitudes involved, so an
exact-fraction model is faithful.  The fractions are kept reduced with positive
denominator, so structural equality is value equality, matching Python `==`. -/

/-- An exact fraction `num / den` with `den` positive and the fraction reduced
(by construction through `PyFloat.mk2`). -/
structure PyFloat where
  num : Int
  den : Nat
deriving DecidableEq

/-- Build a reduced fraction from a numerator and a positive denominator. -/
def PyFloat.mk2 (n : Int) (d : Nat) : PyFloat :=
  let g := Nat.gcd n.natAbs d
  if g = 0 then ⟨0, 1⟩ else ⟨n / (g : Int), d / g⟩

def PyFloat.ofInt (n : Int) : PyFloat := ⟨n, 1⟩

def PyFloat.mul (a b : PyFloat) : PyFloat := PyFloat.mk2 (a.num * b.num) (a.den * b.den)

def PyFloat.add (a b : PyFloat) : PyFloat :=
  PyFloat.mk2 (a.num * (b.den : Int) + b.num * (a.den : Int)) (a.den * b.den)

def PyFloat.sub (a b : PyFloat) : PyFloat :=
  PyFloat.mk2 (a.num * (b.den : Int) - b.num * (a.den : Int)) (a.den * b.den)

def PyFloat.neg (a : PyFloat) : PyFloat := ⟨-a.num, a.den⟩

/-! ## Structural string helpers

The `String` API functions `replace`, `split`, `splitOn` and `startsWith` are
defined by well-founded recursion in core and do not reduce inside the kernel,
so the Python string operations are modelled structurally on character
lists. -/

/-- Digit characters to their value, for Python numeric parsing. -/
def digitVal (c : Char) : Nat := c.toNat - 48

/-- Parse a nonempty all-digit character list as a natural number. -/
def parseNatDigits (cs : List Char) : Option Nat :=
  if cs ≠ [] ∧ cs.all Char.isDigit then
    some (cs.foldl (fun a c => a * 10 + digitVal c) 0)
  else
    none

/-- Python `float(s)` on strings of the shape `-?[0-9]+(\.[0-9]+)?` produced by
the card regexes, as an exact fraction. -/
def pyFloat (s : String) : Option PyFloat :=
  let cs := s.toList
  let signed : Bool × List Char :=
    match cs with
    | '-' :: rest => (true, rest)
    | _ => (false, cs)
  let mag : Option PyFloat :=
    match signed.2.splitOn '.' with
    | [w] => (parseNatDigits w).map (fun n => PyFloat.ofInt (n : Int))
    | [w, f] =>
      match parseNatDigits w, parseNatDigits f with
      | some n, some m => some (PyFloat.mk2 ((n : Int) * (10 : Int) ^ f.length + (m : Int)) ((10 : Nat) ^ f.length))
      | _, _ => none
    | _ => none
  mag.map (fun q => if signed.1 then PyFloat.neg q else q)

/-- Python `int(s)` on optionally-signed digit strings; `none` models the
`ValueError` that any other string raises. -/
def pyIntParse (s : String) : Option Int :=
  match s.toList with
  | '-' :: rest => (parseNatDigits rest).map (fun n => -(n : Int))
  | cs => (parseNatDigits cs).map (fun n => (n : Int))

/-- Does the second list lead the first, i.e. is it an initial segment? -/
def leadsWith : List Char → List Char → Bool
  | [], _ => true
  | _ :: _, [] => false
  | p :: ps, c :: cs => p = c && leadsWith ps cs

/-- Occurrence test of a pattern anywhere in a character list. -/
def strContainsAux (pat : List Char) : List Char → Bool
  | [] => leadsWith pat []
  | c :: rest => leadsWith pat (c :: rest) || strContainsAux pat rest

/-- Python `pat in s`, used to model the `(?!.*word)` negative lookaheads of
`CARD_IGNORE_REGEX`. -/
def strContains (s pat : String) : Bool := strContainsAux pat.toList s.toList

/-- Python `s.startswith(pre)`, used to model anchored `re.match`. -/
def pyStartsWith (s pre : String) : Bool := leadsWith pre.toList s.toList

/-- One pass of Python `str.replace`: replace every non-overlapping occurrence
of the (nonempty) pattern, left to right.  The fuel is the input length, which
suffices because every step consumes at least one character. -/
def replaceFuel (pat rep : List Char) : Nat → List Char → List Char
  | 0, s => s
  | _ + 1, [] => []
  | fuel + 1, c :: rest =>
    if leadsWith pat (c :: rest) then
      rep ++ replaceFuel pat rep fuel ((c :: rest).drop pat.length)
    else
      c :: replaceFuel pat rep fuel rest

/-- Python `s.replace(pat, rep)` for nonempty `pat` (every pattern used by the
translator is nonempty). -/
def pyReplace (s pat rep : String) : String :=
  if pat.toList.isEmpty then s
  else String.mk (replaceFuel pat.toList rep.toList s.toList.length s.toList)

def isWsChar (c : Char) : Bool := c = ' ' || c = '\t' || c = '\n'

def pySplitAux : List Char → List Char → List String
  | [], acc => if acc.isEmpty then [] else [String.mk acc.reverse]
  | c :: rest, acc =>
    if isWsChar c then
      if acc.isEmpty then pySplitAux rest []
      else String.mk acc.reverse :: pySplitAux rest []
    else pySplitAux rest (c :: acc)

/-! ## Boundary resolver (`get_boundary_conditions_and_root`, lines 145-199) -/

/-- Tokens accepted exactly by the alternation
`([1-3]|black|reflective|periodic)`: the valid boundary tokens of the mapping
loop. -/
def validBcToken (s : String) : Bool :=
  s = "1" || s = "2" || s = "3" || s = "black" || s = "reflective" || s = "periodic"

/-- A token at which one repetition of `\s+([1-3]|black|reflective|periodic)`
can start: the alternation only has to match a PREFIX of the token, because
the trailing `COMMENT_IGNORE_END_REGEX` (`\s*[^%]*`) absorbs the rest of the
token — e.g. `12` matches via the prefix `1`. -/
def validBcTokenPrefix (t : String) : Bool :=
  pyStartsWith t "1" || pyStartsWith t "2" || pyStartsWith t "3" ||
  pyStartsWith t "black" || pyStartsWith t "reflective" || pyStartsWith t "periodic"

/-- `re.search(BC_REGEX, line)`: the line reads `set bc` followed by a token
opening with a valid boundary token (one repetition suffices for the
`{1,3}`); `group(0)` then spans the whole comment-free line, so `bc_data`
holds every token from position 2 on, including ones like `12` that only
matched by prefix. -/
def matchesBcRegex (toks : Line) : Bool :=
  match toks with
  | a :: b :: t :: _ => a = "set" && b = "bc" && validBcTokenPrefix t
  | _ => false

/-- `re.search(ROOT_REGEX, line)`: the line reads `set root <name>` where
`[a-zA-Z0-9]+` only has to match a nonempty PREFIX of the name token (the
comment-ignore tail absorbs the rest), i.e. the token's first character is
alphanumeric; `root_card.split()[2]` is still the full token (e.g. a card
`set root u7!` resolves and the program returns `u7!`). -/
def matchesRootRegex (toks : Line) : Bool :=
  match toks with
  | a :: b :: t :: _ =>
    a = "set" && b = "root" &&
      (match t.toList with
       | c :: _ => c.isAlpha || c.isDigit
       | [] => false)
  | _ => false

/-- The card-scanning loop of `get_boundary_conditions_and_root` (lines
163-171): remember the last seen boundary card and root card, stopping as soon
as both have been found (the `break`).  A line matching the boundary regex is
not tested against the root regex (the `elif`). -/
def scanCards : List Line → Option Line → Option Line → Option Line × Option Line
  | [], bc, root => (bc, root)
  | l :: ls, bc, root =>
    if matchesBcRegex l then
      if root.isSome then (some l, root) else scanCards ls (some l) root
    else if matchesRootRegex l then
      if bc.isSome then (bc, some l) else scanCards ls bc (some l)
    else
      if bc.isSome && root.isSome then (bc, root) else scanCards ls bc root

/-- The token mapping of lines 180-193: `1|black → vacuum`,
`2|reflective → reflective`, `3|periodic → periodic`, anything else raises
`ValueError`. -/
def mapBcToken (bc : String) : Except String String :=
  if bc = "1" || bc = "black" then .ok "vacuum"
  else if bc = "2" || bc = "reflective" then .ok "reflective"
  else if bc = "3" || bc = "periodic" then .ok "periodic"
  else .error ("ValueError: Boundary type " ++ bc ++ " is invalid")

/-- The accumulation loop `for bc in bc_data: surface_bc += [...]`, raising at
the first invalid token. -/
def mapBcTokens : List String → Except String (List String)
  | [] => .ok []
  | t :: ts =>
    match mapBcToken t with
    | .error e => .error e
    | .ok v =>
      match mapBcTokens ts with
      | .error e => .error e
      | .ok vs => .ok (v :: vs)

/-- Lines 173-193: the boundary list computed from the resolved boundary card;
absence of the card yields the single default entry `["vacuum"]`, otherwise the
card's tokens from position 2 on (`bc_data = bc_card.split()[2:]`) are mapped
in order. -/
def bcFromCard : Option Line → Except String (List String)
  | none => .ok ["vacuum"]
  | some toks => mapBcTokens (toks.drop 2)

/-- Lines 195-198: the root universe name, `root_card.split()[2]` when a root
card was found and `"0"` otherwise. -/
def rootFromCard : Option Line → String
  | none => "0"
  | some toks => toks.getD 2 ""

/-- `get_boundary_conditions_and_root(geo_data)` (lines 145-199): scan for the
boundary and root cards, map the boundary tokens (raising `ValueError` on an
unrecognized one) and resolve the root name. -/
def get_boundary_conditions_and_root (geo_data : List Line) :
    Except String (List String × String) :=
  let cards := scanCards geo_data none none
  (bcFromCard cards.1).map (fun surface_bc => (surface_bc, rootFromCard cards.2))

/-! ## Registries, surface objects, and object identity -/

/-- Geometric kind of a constructed surface object (its `openmc` class). -/
inductive SurfKind
  | xplane
  | yplane
  | zplane
  | planeGeneric
  | zcylinder
  | sphere
  | otherKind
deriving DecidableEq

/-- A constructed primitive surface object: class, `name`, `id`,
`boundary_type` (openmc default `"transmission"`), and numeric parameters. -/
structure Surface where
  kind : SurfKind
  name : String
  id : Int
  boundary_type : String
  params : List PyFloat
deriving DecidableEq

/-- A value stored in `surf_dict`: the sentinel string kept for special-case
surfaces (`"inf"`), a plain surface object, or the `OrderedDict` of
sub-surfaces returned by `get_surfaces()` for composite surfaces (keyed by
sub-surface id). -/
inductive SurfEntry
  | sentinel (s : String)
  | single (s : Surface)
  | subsurfs (d : List (Int × Surface))
deriving DecidableEq

/-- The module-level registries of `_script_helpers.py` plus the allocation
counter modelling `openmc` object identity: each `openmc.Universe()` or
`openmc.Cell()` call returns the current `next_uid`.  Cell and material objects
are likewise represented by their uids. -/
structure GeoState where
  surf_dict : List (String × SurfEntry)
  cell_dict : List (String × Nat)
  mat_dict : List (String × Nat)
  universe_dict : List (String × Nat)
  universe_to_cell_names_dict : List (String × List String)
  next_uid : Nat
deriving DecidableEq

/-- The globals read (but never written) by `construct_openmc_cell`:
`surface_bc`, `n_bcs`, and `root_name`, supplied by the driver. -/
structure GeoCtx where
  surface_bc : List String
  n_bcs : Nat
  root_name : String

/-- Python dict assignment `d[k] = v`: overwrite the existing entry in place or
append, preserving insertion order. -/
def dictSet {α : Type} : List (String × α) → String → α → List (String × α)
  | [], k, v => [(k, v)]
  | (k', v') :: rest, k, v =>
    if k' = k then (k, v) :: rest else (k', v') :: dictSet rest k v

/-- `add_cell_name_to_universe` (lines 131-142).  The guard is
`bool(universe_to_cell_names_dict.get(univ_name))`: the key is present with a
nonempty list.  Otherwise the membership list is (re)created and a fresh
`openmc.Universe` object is stored under the name, overwriting any universe
object already registered there. -/
def add_cell_name_to_universe (st : GeoState) (univ_name cell_name : String) : GeoState :=
  match List.lookup univ_name st.universe_to_cell_names_dict with
  | some cells =>
    if cells.isEmpty then
      { st with
        universe_to_cell_names_dict :=
          dictSet st.universe_to_cell_names_dict univ_name [cell_name],
        universe_dict := dictSet st.universe_dict univ_name st.next_uid,
        next_uid := st.next_uid + 1 }
    else
      { st with
        universe_to_cell_names_dict :=
          dictSet st.universe_to_cell_names_dict univ_name (cells ++ [cell_name]) }
  | none =>
    { st with
      universe_to_cell_names_dict :=
        dictSet st.universe_to_cell_names_dict univ_name [cell_name],
      universe_dict := dictSet st.universe_dict univ_name st.next_uid,
      next_uid := st.next_uid + 1 }

/-! ## Region/cell builder (`construct_openmc_cell` and helpers) -/

/-- Python `str.split()` on whitespace, dropping empty fields. -/
def pySplit (s : String) : List String := pySplitAux s.toList []

/-- `_strip_csg_operators` (lines 342-363): blank out `-`, `:`, `#`, `(`, `)`
(but not `+`) and split on whitespace. -/
def _strip_csg_operators (csg : String) : List String :=
  pySplit (pyReplace (pyReplace (pyReplace (pyReplace (pyReplace csg
    "-" " ") ":" " ") "#" " ") "(" " ") ")" " ")

/-- Python `subsurf_dict[subsurf_names[0]] == openmc.XPlane` (line 388)
compares a surface *instance* against the *class* object `openmc.XPlane`; no
instance compares equal to a type object, so the result is false for every
sub-surface. -/
def instanceEqXPlaneClass (_ : Surface) : Bool := false

/-- Same as `instanceEqXPlaneClass` for the `openmc.YPlane` comparison on line
391. -/
def instanceEqYPlaneClass (_ : Surface) : Bool := false

/-- `_get_subsurf_region_expr_helper` (lines 365-379): walk the sub-surface
dict in order, emitting `+id ` or `-id ` according to the index predicates and
raising `ValueError` when an index matches neither. -/
def subsurfExprHelper (pos neg : Nat → Bool) :
    Nat → List (Int × Surface) → Except String String
  | _, [] => .ok ""
  | i, entry :: rest =>
    if pos i then
      match subsurfExprHelper pos neg (i + 1) rest with
      | .error e => .error e
      | .ok r => .ok ("+" ++ toString entry.2.id ++ " " ++ r)
    else if neg i then
      match subsurfExprHelper pos neg (i + 1) rest with
      | .error e => .error e
      | .ok r => .ok ("-" ++ toString entry.2.id ++ " " ++ r)
    else
      .error "ValueError: Bad index when creating csg expression for subsurfaces"

/-- `_get_subsurf_region_expr` (lines 381-403): sign table keyed by sub-surface
count.  Four sub-surfaces use the rectangular partition; six sub-surfaces pick
a hexagonal partition with the instance-vs-class comparisons, both of which are
false, so `match_pos_hs` is never bound and Python raises `UnboundLocalError`
at the helper call; any other count raises `ValueError`. -/
def _get_subsurf_region_expr (d : List (Int × Surface)) : Except String String :=
  let body : Except String String :=
    if d.length = 4 then
      subsurfExprHelper (fun i => i = 0 || i = 2) (fun i => i = 1 || i = 3) 0 d
    else if d.length = 6 then
      match d with
      | entry :: _ =>
        if instanceEqXPlaneClass entry.2 then
          subsurfExprHelper (fun i => i = 0 || i = 2 || i = 3)
            (fun i => i = 1 || i = 4 || i = 5) 0 d
        else if instanceEqYPlaneClass entry.2 then
          subsurfExprHelper (fun i => i = 0 || i = 2 || i = 5)
            (fun i => i = 1 || i = 4 || i = 3) 0 d
        else
          .error "UnboundLocalError: local variable match_pos_hs referenced before assignment"
      | [] =>
        .error "UnboundLocalError: local variable match_pos_hs referenced before assignment"
    else
      .error "ValueError: There were too many subsurfaces in the region"
  match body with
  | .error e => .error e
  | .ok e => .ok ("(" ++ e.dropRight 1 ++ ")")

/-- One boundary-type assignment of the `outside`-cell loop (lines 494-512).
The three flags are `isinstance(surface_object, openmc.XPlane/YPlane/ZPlane)`;
the tested value is the dict wrapping the surface (or the OrderedDict of
sub-surfaces), never a surface instance, so every caller passes `false` and for
2-3 boundary entries nothing is assigned. -/
def bcAssignOne (ctx : GeoCtx) (dictIsX dictIsY dictIsZ : Bool) (s : Surface) : Surface :=
  if ctx.n_bcs = 1 then { s with boundary_type := ctx.surface_bc.getD 0 "" }
  else if ctx.n_bcs ≤ 3 then
    if dictIsX then { s with boundary_type := ctx.surface_bc.getD 0 "" }
    else if dictIsY then { s with boundary_type := ctx.surface_bc.getD 1 "" }
    else if dictIsZ then { s with boundary_type := ctx.surface_bc.getD 2 "" }
    else s
  else s

/-- The result quadruple of `construct_openmc_cell`: the cell object (by uid),
its name, the fill object (material or universe uid, `none` for `outside`
cells), and the region, modelled by the final csg expression string handed to
`openmc.Region.from_expression`. -/
structure CellResult where
  cell_uid : Nat
  cell_name : String
  fill : Option Nat
  region : Option String
deriving DecidableEq

/-- The per-referenced-surface loop of `construct_openmc_cell` (lines 483-525):
look each name up in `surf_dict` (`KeyError` on a miss), branch on the
OrderedDict check for composite collections, apply boundary conditions for
`outside` cells, and record either the synthesized sub-surface region
expression or the surface id string under the name.  A sentinel entry reaching
this loop raises `AttributeError` (a string has neither `boundary_type` nor
`id`).  The local `cell_surface_dict` (id-to-object, an argument of the region
parser) is not modelled because regions are modelled by their final expression
strings.  The returned state carries the boundary-type writes performed so
far. -/
def csgSingleStep (ctx : GeoCtx) (cell_type : String) (s : Surface) : Surface :=
  if cell_type = "outside" then bcAssignOne ctx false false false s else s

/-- For composite collections the boundary loop runs over every sub-surface. -/
def csgSubsurfStep (ctx : GeoCtx) (cell_type : String) (d : List (Int × Surface)) :
    List (Int × Surface) :=
  if cell_type = "outside" then
    d.map (fun p => (p.1, bcAssignOne ctx false false false p.2))
  else d

def csgSurfLoop (ctx : GeoCtx) (cell_type : String) :
    List String → GeoState → List String → List (String × String) →
    GeoState × Except String (List String × List (String × String))
  | [], st, subs, m => (st, .ok (subs, m))
  | name :: rest, st, subs, m =>
    match List.lookup name st.surf_dict with
    | none => (st, .error ("KeyError: " ++ name))
    | some (SurfEntry.sentinel _) =>
      (st, .error "AttributeError: str object has no attribute id")
    | some (SurfEntry.single s) =>
      csgSurfLoop ctx cell_type rest
        { st with surf_dict :=
            dictSet st.surf_dict name (SurfEntry.single (csgSingleStep ctx cell_type s)) }
        subs (dictSet m name (toString (csgSingleStep ctx cell_type s).id))
    | some (SurfEntry.subsurfs d) =>
      match _get_subsurf_region_expr (csgSubsurfStep ctx cell_type d) with
      | .error e =>
        ({ st with surf_dict :=
            dictSet st.surf_dict name (SurfEntry.subsurfs (csgSubsurfStep ctx cell_type d)) },
         .error e)
      | .ok expr =>
        csgSurfLoop ctx cell_type rest
          { st with surf_dict :=
              dictSet st.surf_dict name (SurfEntry.subsurfs (csgSubsurfStep ctx cell_type d)) }
          (subs ++ [name]) (dictSet m name expr)

/-- The operator-replacement block (lines 527-541).  The first replace looks
for the literal text of the regex snippet (it never occurs in a card), `:`
becomes union and `#` complement; for composite surfaces a leading `-` on the
name is dropped and a leading `+` becomes `~`, and finally every name is
replaced by its recorded id string or synthesized expression. -/
def replacePhase (csg : String) (surface_names subs : List String)
    (m : List (String × String)) : String :=
  surface_names.foldl
    (fun acc name =>
      let acc2 :=
        if subs.contains name then
          pyReplace (pyReplace acc ("-" ++ name) name) ("+" ++ name) ("~" ++ name)
        else acc
      pyReplace acc2 name ((List.lookup name m).getD ""))
    (pyReplace (pyReplace
      (pyReplace csg "\\s[a-zA-Z0-9]" "\\s\\+[a-zA-Z0-9]") ":" "|") "#" "~")

/-- The generic case of `construct_openmc_cell` (lines 479-541): run the
surface loop, then the operator replacements, and parse the substituted
expression into the cell region. -/
def cellGenericCase (ctx : GeoCtx) (cell_type : String) (stF : GeoState)
    (cell_uid : Nat) (cell_name : String) (fill : Option Nat)
    (csg_tail : String) (surface_names : List String) :
    GeoState × Except String CellResult :=
  match csgSurfLoop ctx cell_type surface_names stF [] [] with
  | (stL, .error e) => (stL, .error e)
  | (stL, .ok (subs, m)) =>
    (stL, .ok ⟨cell_uid, cell_name, fill,
      some (replacePhase csg_tail surface_names subs m)⟩)

/-- Fill-object resolution of `construct_openmc_cell` (lines 448-466):
`outside` cells keep `None`; `material` cells index `mat_dict` with the fourth
token (`KeyError` when the material is unknown); `fill` cells index
`universe_dict` with the fifth token after lazily creating a placeholder
universe when the target is unseen and is not the root name; any other
cell_type raises `ValueError`. -/
def fillResolve (ctx : GeoCtx) (st2 : GeoState) (toks : List String)
    (cell_type : String) : GeoState × Except String (Option Nat) :=
  if cell_type = "outside" then (st2, .ok none)
  else if cell_type = "material" then
    match List.lookup (toks.getD 3 "") st2.mat_dict with
    | some uid => (st2, .ok (some uid))
    | none => (st2, .error ("KeyError: " ++ toks.getD 3 ""))
  else if cell_type = "fill" then
    if (List.lookup (toks.getD 4 "") st2.universe_dict).isNone ∧
        toks.getD 4 "" ≠ ctx.root_name then
      match List.lookup (toks.getD 4 "")
          (dictSet st2.universe_dict (toks.getD 4 "") st2.next_uid) with
      | some uid =>
        ({ st2 with
            universe_dict := dictSet st2.universe_dict (toks.getD 4 "") st2.next_uid,
            next_uid := st2.next_uid + 1 }, .ok (some uid))
      | none =>
        ({ st2 with
            universe_dict := dictSet st2.universe_dict (toks.getD 4 "") st2.next_uid,
            next_uid := st2.next_uid + 1 }, .error ("KeyError: " ++ toks.getD 4 ""))
    else
      match List.lookup (toks.getD 4 "") st2.universe_dict with
      | some uid => (st2, .ok (some uid))
      | none => (st2, .error ("KeyError: " ++ toks.getD 4 ""))
  else (st2, .error ("ValueError: cell_type: " ++ cell_type ++ " is erroneous"))

/-- The special-case dispatch and region construction of
`construct_openmc_cell` (lines 471-541): a `material` cell whose expression is
exactly one name bound to the `inf` sentinel gets a brand-new null-region cell
(`mat_null_cell = openmc.Cell()`); everything else goes through the generic
csg machinery.  The sentinel comparison `surf_dict[surface_names[0]] == 'inf'`
performs the lookup, so a missing name raises `KeyError` here. -/
def cellCsgPhase (ctx : GeoCtx) (cell_type : String) (stF : GeoState)
    (cell_uid : Nat) (cell_name : String) (fill : Option Nat)
    (csg_tail : String) : GeoState × Except String CellResult :=
  if cell_type = "material" ∧ (_strip_csg_operators csg_tail).length = 1 then
    match List.lookup ((_strip_csg_operators csg_tail).headD "") stF.surf_dict with
    | none => (stF, .error ("KeyError: " ++ (_strip_csg_operators csg_tail).headD ""))
    | some entry =>
      if entry = SurfEntry.sentinel "inf" then
        ({ stF with next_uid := stF.next_uid + 1 },
         .ok ⟨stF.next_uid, cell_name, fill, none⟩)
      else
        cellGenericCase ctx cell_type stF cell_uid cell_name fill csg_tail
          (_strip_csg_operators csg_tail)
  else
    cellGenericCase ctx cell_type stF cell_uid cell_name fill csg_tail
      (_strip_csg_operators csg_tail)

/-- `construct_openmc_cell(cell_card, cell_card_splitter, cell_type)` (lines
405-543).  The card is passed as its whitespace token list together with the
csg-expression tail that `re.split(cell_card_splitter, cell_card)[-1]`
extracts (everything after the card head).  The universe-membership
registration happens first, then the `openmc.Cell()` allocation, then fill
resolution, then the csg phase; the returned state carries every mutation
performed before a raise, mirroring the Python module globals.  An error
outcome of fill resolution propagates with the state reached so far
(`constructDispatch`), otherwise the csg phase runs. -/
def constructDispatch (ctx : GeoCtx) (cell_type : String)
    (pr : GeoState × Except String (Option Nat)) (cell_uid : Nat)
    (cell_name : String) (csg_tail : String) : GeoState × Except String CellResult :=
  match pr with
  | (stF, .error e) => (stF, .error e)
  | (stF, .ok fill) => cellCsgPhase ctx cell_type stF cell_uid cell_name fill csg_tail

def construct_openmc_cell (ctx : GeoCtx) (st0 : GeoState) (toks : List String)
    (csg_tail : String) (cell_type : String) : GeoState × Except String CellResult :=
  constructDispatch ctx cell_type
    (fillResolve ctx
      { add_cell_name_to_universe st0 (toks.getD 2 "") (toks.getD 1 "") with
        next_uid :=
          (add_cell_name_to_universe st0 (toks.getD 2 "") (toks.getD 1 "")).next_uid + 1 }
      toks cell_type)
    (add_cell_name_to_universe st0 (toks.getD 2 "") (toks.getD 1 "")).next_uid
    (toks.getD 1 "") csg_tail

/-! ## Surface builder (`_get_openmc_surface_params`,
`construct_and_store_openmc_surface`) -/

/-- Halve a fraction (`x / 2`). -/
def PyFloat.half (a : PyFloat) : PyFloat := PyFloat.mk2 a.num (a.den * 2)

/-- Exact 3-vectors for the plane-from-three-points reduction. -/
abbrev Vec3 := PyFloat × PyFloat × PyFloat

def v3sub (a b : Vec3) : Vec3 :=
  (a.1.sub b.1, a.2.1.sub b.2.1, a.2.2.sub b.2.2)

def v3neg (a : Vec3) : Vec3 := (a.1.neg, a.2.1.neg, a.2.2.neg)

/-- `np.cross` of two 3-vectors. -/
def v3cross (a b : Vec3) : Vec3 :=
  ((a.2.1.mul b.2.2).sub (a.2.2.mul b.2.1),
   (a.2.2.mul b.1).sub (a.1.mul b.2.2),
   (a.1.mul b.2.1).sub (a.2.1.mul b.1))

/-- `np.dot` of two 1-D arrays of length 3: a NumPy scalar. -/
def v3dot (a b : Vec3) : PyFloat :=
  ((a.1.mul b.1).add (a.2.1.mul b.2.1)).add (a.2.2.mul b.2.2)

/-- Models `np.dot(n, n0)[0]` on line 228: `np.dot` of two 1-D arrays returns a
NumPy scalar, and indexing a NumPy scalar with `[0]` raises `IndexError`, so
this lookup fails for every input. -/
def scalarIndex0 (_ : PyFloat) : Except String PyFloat :=
  .error "IndexError: invalid index to scalar variable"

/-- The `surface_params` value assembled by `_get_openmc_surface_params`: a
plain numeric list, the `cylv` point/radius repackaging, the prism
width/height/axis/origin list, or the hexagonal-prism arguments.  The
hexagonal edge length `2*d/sqrt(3)` (line 265) is irrational and is modelled
by recording the apothem `d` (no claim inspects the value). -/
inductive SurfParams
  | numsOut (l : List PyFloat)
  | cylvOut (p1 p2 : List PyFloat) (r : PyFloat)
  | prismOut (width height : PyFloat) (axis : String) (origin : List PyFloat)
  | hexOut (apothem : PyFloat) (orientation : String) (origin : PyFloat × PyFloat)
deriving DecidableEq

/-- The triple returned by `_get_openmc_surface_params`. -/
structure SurfParamsOut where
  surface_params : Option SurfParams
  set_attributes : Bool
  has_subsurfaces : Bool
deriving DecidableEq

/-- The surface kinds of `geo_dict["surf"]` whose value is not `None` (`octa`
and `pad` map to `None`, so `bool(geo_dict['surf'].get(t))` is falsy for them
as for unknown kinds). -/
def knownSurfTypes : List String :=
  ["px", "py", "pz", "plane", "cylx", "cyly", "cylz", "cyl", "cylv", "sph", "cone",
   "quadratic", "torx", "tory", "torz", "sqc", "rect", "hexxc", "hexyc", "cube", "cuboid"]

/-- `_get_openmc_surface_params(surf_type, surf_params)` (lines 201-293).  The
special-case sentinel (`inf`) skips attribute assembly; a known kind
dispatches on the type; anything else raises the unsupported-surface
`ValueError`.  For `plane` with 9 parameters the three points are read
columnwise (`p1 = params[0], params[3], params[6]` and so on), the normal is
the cross product of the edge vectors, and the last coefficient is
`np.dot(n, n0)[0]`, which always raises `IndexError` because the dot product
of two 1-D arrays is a scalar. -/
def _get_openmc_surface_params (surf_type : String) (surf_params : List PyFloat) :
    Except String SurfParamsOut :=
  let z := PyFloat.ofInt 0
  if surf_type = "inf" then
    .ok ⟨none, false, false⟩
  else if knownSurfTypes.contains surf_type then
    if surf_type = "plane" then
      if surf_params.length = 9 then
        match
          scalarIndex0 (v3dot
            (v3cross
              (v3sub (surf_params.getD 1 z, surf_params.getD 4 z, surf_params.getD 7 z)
                (surf_params.getD 0 z, surf_params.getD 3 z, surf_params.getD 6 z))
              (v3sub (surf_params.getD 2 z, surf_params.getD 5 z, surf_params.getD 8 z)
                (surf_params.getD 0 z, surf_params.getD 3 z, surf_params.getD 6 z)))
            (v3neg (surf_params.getD 0 z, surf_params.getD 3 z, surf_params.getD 6 z))) with
        | .error e => .error e
        | .ok dcoef =>
          .ok ⟨some (.numsOut
            [(v3cross
                (v3sub (surf_params.getD 1 z, surf_params.getD 4 z, surf_params.getD 7 z)
                  (surf_params.getD 0 z, surf_params.getD 3 z, surf_params.getD 6 z))
                (v3sub (surf_params.getD 2 z, surf_params.getD 5 z, surf_params.getD 8 z)
                  (surf_params.getD 0 z, surf_params.getD 3 z, surf_params.getD 6 z))).1,
             (v3cross
                (v3sub (surf_params.getD 1 z, surf_params.getD 4 z, surf_params.getD 7 z)
                  (surf_params.getD 0 z, surf_params.getD 3 z, surf_params.getD 6 z))
                (v3sub (surf_params.getD 2 z, surf_params.getD 5 z, surf_params.getD 8 z)
                  (surf_params.getD 0 z, surf_params.getD 3 z, surf_params.getD 6 z))).2.1,
             (v3cross
                (v3sub (surf_params.getD 1 z, surf_params.getD 4 z, surf_params.getD 7 z)
                  (surf_params.getD 0 z, surf_params.getD 3 z, surf_params.getD 6 z))
                (v3sub (surf_params.getD 2 z, surf_params.getD 5 z, surf_params.getD 8 z)
                  (surf_params.getD 0 z, surf_params.getD 3 z, surf_params.getD 6 z))).2.2,
             dcoef]), true, false⟩
      else .ok ⟨none, true, false⟩
    else if surf_type = "cylv" then
      match surf_params.getLast? with
      | none => .error "IndexError: list index out of range"
      | some r =>
        .ok ⟨some (.cylvOut (surf_params.take 3) ((surf_params.drop 3).take 3) r),
          true, false⟩
    else if surf_type = "sqc" then
      match surf_params.get? 2 with
      | none => .error "IndexError: list index out of range"
      | some d =>
        .ok ⟨some (.prismOut (d.mul (PyFloat.ofInt 2)) (d.mul (PyFloat.ofInt 2)) "z"
          (surf_params.take 2)), true, true⟩
    else if surf_type = "rect" then
      match surf_params.get? 0, surf_params.get? 1, surf_params.get? 2, surf_params.get? 3 with
      | some p0, some p1, some p2, some p3 =>
        .ok ⟨some (.prismOut (p3.sub p2) (p1.sub p0) "z"
          [p3.sub ((p3.sub p2).half), p1.sub ((p1.sub p0).half)]), true, true⟩
      | _, _, _, _ => .error "IndexError: list index out of range"
    else if surf_type = "hexxc" ∨ surf_type = "hexyc" then
      match surf_params.get? 0, surf_params.get? 1, surf_params.get? 2 with
      | some x0, some y0, some d =>
        .ok ⟨some (.hexOut d (if surf_type = "hexxc" then "y" else "x") (x0, y0)),
          true, true⟩
      | _, _, _ => .error "IndexError: list index out of range"
    else if surf_type = "cube" ∨ surf_type = "cuboid" then
      match surf_params.get? 0, surf_params.get? 1, surf_params.get? 2, surf_params.get? 3 with
      | some x0, some y0, some z0, some d =>
        .ok ⟨some (.numsOut [x0.sub d, x0.add d, y0.sub d, y0.add d, z0.sub d, z0.add d]),
          true, false⟩
      | _, _, _, _ => .error "IndexError: list index out of range"
    else
      .ok ⟨some (.numsOut surf_params), true, false⟩
  else
    .error ("ValueError: Surfaces of type " ++ surf_type ++ " are currently unsupported")

/-- Lines 328-333 of `construct_and_store_openmc_surface`: the id derived from
the surface name when the constructed object carries no `id` attribute.
`int(surf_name)` when the name parses as an integer; otherwise
`int.from_bytes(surf_name.encode(), 'litle')`, whose byteorder argument is
misspelled (`litle` instead of `little`), so Python raises `ValueError` for
every non-integer name instead of producing the little-endian integer of the
name's bytes. -/
def derive_surface_id (surf_name : String) : Except String Int :=
  match pyIntParse surf_name with
  | some i => .ok i
  | none => .error "ValueError: byteorder must be either little or big"

/-- `hasattr(surface_object, 'id')` by constructed type: openmc primitive
surfaces carry an auto-assigned id, while `rectangular_prism` and
`hexagonal_prism` return a `Region` over sub-surfaces, which has none (these
are exactly the `has_subsurfaces` kinds), and the composite-surface classes
used for `cube`/`cuboid` also lack one. -/
def surfHasIdAttr (surf_type : String) : Bool :=
  !(surf_type = "sqc" || surf_type = "rect" || surf_type = "hexxc" ||
    surf_type = "hexyc" || surf_type = "cube" || surf_type = "cuboid")

/-- The sub-surface count of a composite: 6 for the hexagonal prisms, 4 for
the rectangular ones. -/
def subsurfCount (surf_type : String) : Nat :=
  if surf_type = "hexxc" || surf_type = "hexyc" then 6 else 4

/-- Models `get_surfaces()` on the composite region plus the renaming loop
(lines 335-338): sub-surfaces keyed by their auto-assigned ids, with the
`_{name}_sub` suffix appended to each name. -/
def mkSubsurfaces (k : Nat) (start : Nat) (surf_name : String) : List (Int × Surface) :=
  (List.range k).map (fun i =>
    ((start + i : Int),
     { kind := .otherKind, name := "_" ++ surf_name ++ "_sub",
       id := (start + i : Int), boundary_type := "transmission", params := [] }))

/-- The modelled openmc class of a constructed primitive surface. -/
def surfKindOf (surf_type : String) : SurfKind :=
  if surf_type = "px" then .xplane
  else if surf_type = "py" then .yplane
  else if surf_type = "pz" then .zplane
  else if surf_type = "plane" then .planeGeneric
  else if surf_type = "cyl" || surf_type = "cylz" then .zcylinder
  else if surf_type = "sph" then .sphere
  else .otherKind

/-- `construct_and_store_openmc_surface(surf_card)` (lines 296-339), with the
card as its token list.  Numeric arguments are parsed with `float` (a
`ValueError` on failure), the parameter triple is assembled, the surface
object is instantiated when `set_attributes` holds (a `plane` card that left
`surface_params = None` makes `tuple(surface_params)` raise `TypeError`),
non-id objects get the name-derived id (which can raise), composites are
replaced by their sub-surface collections, and the result is registered in
`surf_dict` under the card's name.  Auto-assigned openmc ids are modelled by
the allocation counter. -/
def construct_and_store_openmc_surface (st : GeoState) (toks : List String) :
    GeoState × Except String Unit :=
  match (toks.drop 3).mapM pyFloat with
  | none => (st, .error "ValueError: could not convert string to float")
  | some surf_params =>
    match _get_openmc_surface_params (toks.getD 2 "") surf_params with
    | .error e => (st, .error e)
    | .ok out =>
      if out.set_attributes then
        match out.surface_params with
        | none => (st, .error "TypeError: argument of type NoneType is not iterable")
        | some _ =>
          match (if surfHasIdAttr (toks.getD 2 "") then .ok (st.next_uid : Int) else
            derive_surface_id (toks.getD 1 "")) with
          | .error e => (st, .error e)
          | .ok theId =>
            if out.has_subsurfaces then
              ({ st with
                  surf_dict := dictSet st.surf_dict (toks.getD 1 "")
                    (SurfEntry.subsurfs
                      (mkSubsurfaces (subsurfCount (toks.getD 2 "")) (st.next_uid + 1)
                        (toks.getD 1 ""))),
                  next_uid := st.next_uid + 1 + subsurfCount (toks.getD 2 "") }, .ok ())
            else
              ({ st with
                  surf_dict := dictSet st.surf_dict (toks.getD 1 "")
                    (SurfEntry.single
                      { kind := surfKindOf (toks.getD 2 ""), name := toks.getD 1 "",
                        id := theId, boundary_type := "transmission",
                        params := surf_params }),
                  next_uid := st.next_uid + 1 }, .ok ())
      else
        ({ st with
            surf_dict := dictSet st.surf_dict (toks.getD 1 "")
              (SurfEntry.sentinel (toks.getD 2 "")) }, .ok ())

/-! ## Lattice reconstruction (`_get_lattice_universe_names`,
`get_lattice_univ_array`) -/

/-- The words of the `CARD_IGNORE_REGEX` negative lookaheads
(`(?!.*%)(?!.*lat)...`): a multi-line universe row must not contain any of
them anywhere in the line. -/
def cardIgnoreWords : List String :=
  ["%", "lat", "cell", "set", "surf", "dtrans", "ftrans", "ltrans", "pin", "solid",
   "strans", "trans"]

/-- Is the character list exactly one unsigned decimal literal
`[0-9]+(\.[0-9]+)?` ? -/
def isUnsignedNumLit (cs : List Char) : Bool :=
  match cs.splitOn '.' with
  | [w] => !w.isEmpty && w.all Char.isDigit
  | [w, f] => !w.isEmpty && w.all Char.isDigit && !f.isEmpty && f.all Char.isDigit
  | _ => false

/-- Is the character list exactly one `NUM_REGEX` literal
`-?[0-9]+(\.[0-9]+)?` ? -/
def isNumLit (cs : List Char) : Bool :=
  match cs with
  | '-' :: rest => isUnsignedNumLit rest
  | _ => isUnsignedNumLit cs

/-- Is the character list a concatenation of exactly two `NUM_REGEX`
literals (the regex engine backtracks over all split points)? -/
def isTwoNumLits (cs : List Char) : Bool :=
  (List.range (cs.length + 1)).any
    (fun i => isNumLit (cs.take i) && isNumLit (cs.drop i))

/-- Can a token carry one repetition of the universe-name core
`((NUM_REGEX){0,2}[a-zA-Z0-9]{1,3})` followed by the token-ending whitespace:
a suffix of 1-3 alphanumeric characters preceded by 0, 1 or 2 numeric
literals (so `A`, `12`, `1234` = `123`+`4`, and `12ab` = `12`+`ab` all
qualify, while `abcd` does not). -/
def latNameTokenChk (cs : List Char) : Bool :=
  (List.range' 1 3).any (fun k =>
    decide (k ≤ cs.length) &&
    ((cs.drop (cs.length - k)).all fun c => c.isAlpha || c.isDigit) &&
    ((cs.take (cs.length - k)).isEmpty ||
      isNumLit (cs.take (cs.length - k)) ||
      isTwoNumLits (cs.take (cs.length - k))))

/-- `re.search(LAT_MULTILINE_REGEX, line)` on a token-list line: the
`CARD_IGNORE_REGEX` lookaheads reject any line containing one of the card
words, and the universe-name core requires the line to open with a token
decomposable as up to two glued numeric literals followed by 1-3
alphanumeric characters (the regex limits universe names to 3 characters,
per the comment on line 38; lines end in the newline kept by `readlines`, so
the closing `\s+` always has whitespace to match).  On a match, `group(0)`
spans the whole (comment-free) line, so the collected row is the full token
list. -/
def matchesLatMultiline (toks : Line) : Bool :=
  (cardIgnoreWords.all fun w => !(toks.any fun t => strContains t w)) &&
  (match toks with
   | t :: _ => latNameTokenChk t.toList
   | [] => false)

/-- The while-loop of `_get_lattice_universe_names` (lines 608-615) over the
suffix of the geometry file starting right after the lattice card: while the
current line matches the multi-line universe-name pattern, collect its tokens
as one row and advance (`geo_data[i]` raises `IndexError` when a matching row
is the last line of the file). -/
def collectRows : List Line → Except String (List Line)
  | [] => .ok []
  | l :: rest =>
    if matchesLatMultiline l then
      match rest with
      | [] => .error "IndexError: list index out of range"
      | _ :: _ =>
        match collectRows rest with
        | .error e => .error e
        | .ok rs => .ok (l :: rs)
    else .ok []

/-- `_get_lattice_universe_names(current_line_idx, lattice_args,
lat_univ_index)` (lines 579-619): the inline names are
`lattice_args[lat_univ_index:]` (the `try/except IndexError` guard is vacuous
because Python slices never raise), then continuation rows are appended; the
initial `geo_data[current_line_idx + 1]` raises `IndexError` when the lattice
card is the last line. -/
def _get_lattice_universe_names (geo_data : List Line) (lattice_args : List String)
    (lat_univ_index : Nat) (current_line_idx : Nat) :
    Except String (List String × List Line) :=
  match geo_data.drop (current_line_idx + 1) with
  | [] => .error "IndexError: list index out of range"
  | l :: rest =>
    match collectRows (l :: rest) with
    | .error e => .error e
    | .ok rows => .ok (lattice_args.drop lat_univ_index, rows)

/-- `np.array(lat_univ_names)`: a list of strings (inline names) gives a 1-D
array, a list of equal-length rows a 2-D array; mixing strings with row lists,
or ragged rows, raises `ValueError`.  The array is represented by its
row-major element list, which is what `np.reshape` consumes. -/
def npArrayFlatten (inline : List String) (rows : List Line) :
    Except String (List String) :=
  if rows.isEmpty then .ok inline
  else if inline.isEmpty then
    match rows with
    | [] => .ok []
    | r0 :: rs =>
      if rs.all (fun r => r.length = r0.length) then .ok rows.flatten
      else .error "ValueError: inhomogeneous array"
  else .error "ValueError: inhomogeneous array"

def chunkAux : Nat → Nat → List String → List (List String)
  | 0, _, _ => []
  | _ + 1, _, [] => []
  | fuel + 1, k, l => l.take k :: chunkAux fuel k (l.drop k)

/-- `np.reshape(arr, lattice_elements)` with `lattice_elements = (Nx, Ny)`:
row-major refill into `Nx` rows of `Ny` columns; a size mismatch raises
`ValueError`. -/
def npReshape (flat : List String) (nx ny : Int) : Except String (List Line) :=
  if 0 < nx ∧ 0 < ny ∧ (flat.length : Int) = nx * ny then
    .ok (chunkAux flat.length ny.toNat flat)
  else .error "ValueError: cannot reshape array"

/-- `re.match("(1|2|3)", lattice_type)` (line 649): an anchored match, so it
succeeds exactly when the kind string starts with the digit 1, 2 or 3 — in
particular `11`, `12`, `13`, `14` match via the prefix `1`. -/
def latFirstMatch (t : String) : Bool :=
  pyStartsWith t "1" || pyStartsWith t "2" || pyStartsWith t "3"

/-- `re.match("(1|6|11)", lattice_type)` (line 692): succeeds exactly when the
kind string starts with `1` or `6` (the alternative `11` is subsumed by
`1`). -/
def latSecondMatch (t : String) : Bool :=
  pyStartsWith t "1" || pyStartsWith t "6"

/-- `float(args[i])`: `IndexError` out of range, `ValueError` on a non-numeric
token. -/
def pyFloatAt (args : List String) (i : Nat) : Except String PyFloat :=
  match args.get? i with
  | none => .error "IndexError: list index out of range"
  | some s =>
    match pyFloat s with
    | none => .error "ValueError: could not convert string to float"
    | some q => .ok q

/-- `int(args[i])`. -/
def pyIntAt (args : List String) (i : Nat) : Except String Int :=
  match args.get? i with
  | none => .error "IndexError: list index out of range"
  | some s =>
    match pyIntParse s with
    | none => .error "ValueError: invalid literal for int"
    | some n => .ok n

/-- The re-centering loop (lines 695-698): `lattice_origin = np.empty(2)` is
uninitialized memory, modelled by arbitrary garbage values `g0`, `g1`; for
each `Ncoord` in `lattice_elements = (Nx, Ny)` the written index is
`lattice_elements.index(Ncoord)` — the index of the FIRST occurrence, which is
0 for both loop rounds whenever `Nx = Ny`, so `origin[1]` keeps its garbage
value in exactly the square case. -/
def originLoop (nx ny : Int) (pitch : PyFloat) (g0 g1 : PyFloat) : PyFloat × PyFloat :=
  let half : PyFloat := ⟨1, 2⟩
  let empty2 : PyFloat × PyFloat := (g0, g1)
  let afterFirst : PyFloat × PyFloat := (((PyFloat.ofInt nx).mul half).mul pitch, empty2.2)
  if ny = nx then (((PyFloat.ofInt ny).mul half).mul pitch, afterFirst.2)
  else (afterFirst.1, ((PyFloat.ofInt ny).mul half).mul pitch)

/-- The universe-resolution loop (lines 725-728) on one row:
`universe_dict[n]` raises `KeyError` for an unregistered name. -/
def resolveRow (universe_dict : List (String × Nat)) : List String → Except String (List Nat)
  | [] => .ok []
  | n :: ns =>
    match List.lookup n universe_dict with
    | none => .error ("KeyError: " ++ n)
    | some u =>
      match resolveRow universe_dict ns with
      | .error e => .error e
      | .ok us => .ok (u :: us)

/-- Resolve every universe name of the reshaped array (`np.unique` plus the
`np.where` fill: the placement itself cannot fail, only the lookups can). -/
def resolveUniverses (universe_dict : List (String × Nat)) :
    List Line → Except String (List (List Nat))
  | [] => .ok []
  | r :: rs =>
    match resolveRow universe_dict r with
    | .error e => .error e
    | .ok row =>
      match resolveUniverses universe_dict rs with
      | .error e => .error e
      | .ok rest => .ok (row :: rest)

/-- The triple returned by `get_lattice_univ_array`; universes by uid. -/
structure LatResult where
  lattice_origin : PyFloat × PyFloat
  lattice_pitch : PyFloat × PyFloat
  lattice_universe_array : List (List Nat)
deriving DecidableEq

/-- `get_lattice_univ_array(lattice_type, lattice_args, current_line_idx)`
(lines 622-730).  `lattice_args` is the token list after the card's
`lat <name> <type>` head, per the docstring indices (`x0 = lattice_args[0]`
and so on).  `x0`, `y0` are parsed first (and then discarded in the square
branch, whose origin is recomputed); the first dispatch parses
`(Nx, Ny, pitch)` and sets `lat_univ_index = 8` for every kind string matched
by `(1|2|3)` and raises the unsupported-kind `ValueError` otherwise; the name
array is assembled and reshaped to `lattice_elements = (Nx, Ny)`; the second
dispatch flips the array along axis 0 (`List.reverse` of the rows) and
recomputes the origin for kind strings matched by `(1|6|11)`, raising the
unsupported-lattice-type `ValueError` otherwise; finally every name is
resolved in `universe_dict`. -/
def get_lattice_univ_array (universe_dict : List (String × Nat)) (geo_data : List Line)
    (g0 g1 : PyFloat) (lattice_type : String) (lattice_args : List String)
    (current_line_idx : Nat) : Except String LatResult := do
  let _x0 ← pyFloatAt lattice_args 0
  let _y0 ← pyFloatAt lattice_args 1
  if latFirstMatch lattice_type then
    let nx ← pyIntAt lattice_args 2
    let ny ← pyIntAt lattice_args 3
    let pitch ← pyFloatAt lattice_args 4
    let names ← _get_lattice_universe_names geo_data lattice_args 8 current_line_idx
    let flat ← npArrayFlatten names.1 names.2
    let arr ← npReshape flat nx ny
    if latSecondMatch lattice_type then
      let univs ← resolveUniverses universe_dict arr.reverse
      pure { lattice_origin := originLoop nx ny pitch g0 g1,
             lattice_pitch := (pitch, pitch),
             lattice_universe_array := univs }
    else
      throw ("ValueError: Unsupported lattice type: " ++ lattice_type)
  else
    throw ("ValueError: Type " ++ lattice_type ++ " lattices are currently unsupported")

/-! ## Concrete fixtures used by the claim theorems -/

/-- An X-plane at 0 with id 1, as freshly constructed (default
`boundary_type = "transmission"`). -/
def surfX0 : Surface :=
  { kind := .xplane, name := "sx1", id := 1, boundary_type := "transmission", params := [PyFloat.ofInt 0] }

def surfX1 : Surface :=
  { kind := .xplane, name := "sx2", id := 2, boundary_type := "transmission", params := [PyFloat.ofInt 1] }

def surfY0 : Surface :=
  { kind := .yplane, name := "sy1", id := 3, boundary_type := "transmission", params := [PyFloat.ofInt 0] }

def surfY1 : Surface :=
  { kind := .yplane, name := "sy2", id := 4, boundary_type := "transmission", params := [PyFloat.ofInt 1] }

def surfZ0 : Surface :=
  { kind := .zplane, name := "sz1", id := 5, boundary_type := "transmission", params := [PyFloat.ofInt 0] }

def surfZ1 : Surface :=
  { kind := .zplane, name := "sz2", id := 6, boundary_type := "transmission", params := [PyFloat.ofInt 1] }

/-- The sub-surface collection of a rectangular composite (`sqc`/`rect`): four
entries, two pairs of parallel planes. -/
def rectSubs : List (Int × Surface) := [(1, surfX0), (2, surfX1), (3, surfY0), (4, surfY1)]

/-- The sub-surface collection of a hexagonal composite (`hexxc`/`hexyc`): six
entries, the first an X-plane. -/
def hexSubs : List (Int × Surface) :=
  [(1, surfX0), (2, surfX1), (3, surfY0), (4, surfY1), (5, surfZ0), (6, surfZ1)]

/-- Driver context when no boundary card was given: one default entry. -/
def ctxDefault : GeoCtx := { surface_bc := ["vacuum"], n_bcs := 1, root_name := "0" }

/-- Driver context after `set bc 2 2 1` resolved to three entries. -/
def ctxBc221 : GeoCtx :=
  { surface_bc := ["reflective", "reflective", "vacuum"], n_bcs := 3, root_name := "0" }

/-- Registries holding one plain surface `s1` and no materials. -/
def stNoMat : GeoState :=
  { surf_dict := [("s1", .single surfX0)], cell_dict := [], mat_dict := [],
    universe_dict := [], universe_to_cell_names_dict := [], next_uid := 0 }

/-- `cell c1 u1 m1 -s1` processed while material `m1` is unregistered. -/
def missingMatRun : GeoState × Except String CellResult :=
  construct_openmc_cell ctxDefault stNoMat ["cell", "c1", "u1", "m1"] " -s1" "material"

/-- Registries holding an X-, a Y- and a Z-plane for an `outside` cell. -/
def stOutside : GeoState :=
  { surf_dict := [("s1", .single surfX0), ("s2", .single surfY0), ("s3", .single surfZ0)],
    cell_dict := [], mat_dict := [], universe_dict := [],
    universe_to_cell_names_dict := [], next_uid := 0 }

/-- `cell c9 u0 outside s1 s2 s3` processed with the three resolved boundary
entries of `set bc 2 2 1`. -/
def outsideRun : GeoState × Except String CellResult :=
  construct_openmc_cell ctxBc221 stOutside ["cell", "c9", "u0", "outside"] " s1 s2 s3" "outside"

/-- Registries holding the rectangular composite `F` and material `m`. -/
def stRect : GeoState :=
  { surf_dict := [("F", .subsurfs rectSubs)], cell_dict := [], mat_dict := [("m", 100)],
    universe_dict := [], universe_to_cell_names_dict := [], next_uid := 0 }

/-- `cell c u m -F` with `F` a 4-sub-surface composite. -/
def rectRunMinus : GeoState × Except String CellResult :=
  construct_openmc_cell ctxDefault stRect ["cell", "c", "u", "m"] " -F" "material"

/-- `cell c u m +F` with `F` a 4-sub-surface composite. -/
def rectRunPlus : GeoState × Except String CellResult :=
  construct_openmc_cell ctxDefault stRect ["cell", "c", "u", "m"] " +F" "material"

/-- Registries holding the hexagonal composite `H` and material `m`. -/
def stHex : GeoState :=
  { surf_dict := [("H", .subsurfs hexSubs)], cell_dict := [], mat_dict := [("m", 100)],
    universe_dict := [], universe_to_cell_names_dict := [], next_uid := 0 }

/-- `cell c u m -H` with `H` a 6-sub-surface composite. -/
def hexRun : GeoState × Except String CellResult :=
  construct_openmc_cell ctxDefault stHex ["cell", "c", "u", "m"] " -H" "material"

/-- The nine numeric parameters of the 3-point plane card encoding the points
`(1,0,0)`, `(0,1,0)`, `(0,0,1)` under the code's columnwise reading
(`p1 = (params[0], params[3], params[6])`, ...): the identity layout, which is
the same under row-wise reading. -/
def planePoints9 : List PyFloat :=
  [PyFloat.ofInt 1, PyFloat.ofInt 0, PyFloat.ofInt 0,
   PyFloat.ofInt 0, PyFloat.ofInt 1, PyFloat.ofInt 0,
   PyFloat.ofInt 0, PyFloat.ofInt 0, PyFloat.ofInt 1]

/-- Registries for the forward-reference scenario: surface `s1` and material
`m1` registered, no universes yet. -/
def stForward : GeoState :=
  { surf_dict := [("s1", .single surfX0)], cell_dict := [], mat_dict := [("m1", 100)],
    universe_dict := [], universe_to_cell_names_dict := [], next_uid := 0 }

/-- `cell c1 u0 fill A -s1`: universe `A` is referenced as a fill target before
any of its member cells exist. -/
def forwardStep1 : GeoState × Except String CellResult :=
  construct_openmc_cell ctxDefault stForward ["cell", "c1", "u0", "fill", "A"] " -s1" "fill"

/-- `cell c2 A m1 -s1`: the first member cell of universe `A`, parsed after the
fill reference. -/
def forwardStep2 : GeoState × Except String CellResult :=
  construct_openmc_cell ctxDefault forwardStep1.1 ["cell", "c2", "A", "m1"] " -s1" "material"

/-- Universe registry with `A`, `B`, `C`, `D` registered (uids 1-4). -/
def latUnivDict : List (String × Nat) := [("A", 1), ("B", 2), ("C", 3), ("D", 4)]

/-- Arguments of the claim's inline lattice card `lat L 1 0 0 2 2 10 A B C D`
(the tokens after the `lat L 1` head, per the docstring of
`get_lattice_univ_array`). -/
def latInlineArgs : List String := ["0", "0", "2", "2", "10", "A", "B", "C", "D"]

/-- Geometry lines for the inline card: the card itself followed by a
terminating non-lattice line. -/
def latInlineGeo : List Line :=
  [["lat", "L", "1", "0", "0", "2", "2", "10", "A", "B", "C", "D"],
   ["set", "root", "0"]]

/-- Arguments of the continuation-line form `lat L 1 0 0 2 2 10`. -/
def latMultiArgs : List String := ["0", "0", "2", "2", "10"]

/-- Geometry lines for the continuation form: the card, the two universe rows
`A B` and `C D`, and a terminating non-lattice line. -/
def latMultiGeo : List Line :=
  [["lat", "L", "1", "0", "0", "2", "2", "10"],
   ["A", "B"], ["C", "D"],
   ["set", "root", "0"]]

/-! Scanning lemmas for the boundary/root card loop. -/

theorem scan_bc_of_no_match (geo : List Line) :
    ∀ (bc root : Option Line), (∀ l ∈ geo, matchesBcRegex l = false) →
      (scanCards geo bc root).1 = bc := by
  induction geo with
  | nil => intro bc root _; rfl
  | cons l ls ih =>
    intro bc root h
    have hl : matchesBcRegex l = false := h l (List.mem_cons_self l ls)
    have hrest : ∀ l' ∈ ls, matchesBcRegex l' = false :=
      fun l' hm => h l' (List.mem_cons_of_mem l hm)
    simp only [scanCards, hl, Bool.false_eq_true, if_false]
    split_ifs
    · rfl
    · exact ih _ _ hrest
    · rfl
    · exact ih _ _ hrest

theorem scan_root_of_no_match (geo : List Line) :
    ∀ (bc root : Option Line), (∀ l ∈ geo, matchesRootRegex l = false) →
      (scanCards geo bc root).2 = root := by
  induction geo with
  | nil => intro bc root _; rfl
  | cons l ls ih =>
    intro bc root h
    have hl : matchesRootRegex l = false := h l (List.mem_cons_self l ls)
    have hrest : ∀ l' ∈ ls, matchesRootRegex l' = false :=
      fun l' hm => h l' (List.mem_cons_of_mem l hm)
    simp only [scanCards, hl, Bool.false_eq_true, if_false]
    split_ifs
    · rfl
    · exact ih _ _ hrest
    · rfl
    · exact ih _ _ hrest

/-- A root-matching line never matches the boundary regex. -/
theorem root_match_not_bc (l : Line) (h : matchesRootRegex l = true) :
    matchesBcRegex l = false := by
  rcases l with _ | ⟨a, _ | ⟨b, _ | ⟨t, rest⟩⟩⟩
  · rfl
  · rfl
  · rfl
  · simp only [matchesRootRegex, Bool.and_eq_true, decide_eq_true_eq] at h
    obtain ⟨⟨ha, hb⟩, _⟩ := h
    subst ha; subst hb
    rfl

/-- The scan returns the unique root-matching line of the source. -/
theorem scan_root_unique (toks : Line) (l₂ : List Line)
    (htoks : matchesRootRegex toks = true)
    (h₂ : ∀ l ∈ l₂, matchesRootRegex l = false) :
    ∀ (l₁ : List Line) (bc : Option Line), (∀ l ∈ l₁, matchesRootRegex l = false) →
      (scanCards (l₁ ++ toks :: l₂) bc none).2 = some toks := by
  intro l₁
  induction l₁ with
  | nil =>
    intro bc _
    have hbc := root_match_not_bc toks htoks
    simp only [List.nil_append, scanCards, hbc, htoks, Bool.false_eq_true, if_false, if_true]
    split_ifs
    · rfl
    · exact scan_root_of_no_match l₂ _ _ h₂
  | cons l ls ih =>
    intro bc h₁
    have hl : matchesRootRegex l = false := h₁ l (List.mem_cons_self l ls)
    have hrest : ∀ l' ∈ ls, matchesRootRegex l' = false :=
      fun l' hm => h₁ l' (List.mem_cons_of_mem l hm)
    simp only [List.cons_append, scanCards, hl, Bool.false_eq_true, if_false,
      Option.isSome_none, Bool.and_false]
    split_ifs
    · exact ih _ hrest
    · exact ih _ hrest

theorem mapBcToken_error_of_invalid (t : String) (h : validBcToken t = false) :
    mapBcToken t = .error ("ValueError: Boundary type " ++ t ++ " is invalid") := by
  have h1 : t ≠ "1" := by intro hh; subst hh; simp [validBcToken] at h
  have h2 : t ≠ "2" := by intro hh; subst hh; simp [validBcToken] at h
  have h3 : t ≠ "3" := by intro hh; subst hh; simp [validBcToken] at h
  have h4 : t ≠ "black" := by intro hh; subst hh; simp [validBcToken] at h
  have h5 : t ≠ "reflective" := by intro hh; subst hh; simp [validBcToken] at h
  have h6 : t ≠ "periodic" := by intro hh; subst hh; simp [validBcToken] at h
  simp [mapBcToken, h1, h2, h3, h4, h5, h6]

theorem mapBcTokens_error_of_mem (ts : List String) (t : String)
    (hmem : t ∈ ts) (hbad : validBcToken t = false) :
    ∃ e, mapBcTokens ts = .error e := by
  induction ts with
  | nil => cases hmem
  | cons a rest ih =>
    rcases List.mem_cons.mp hmem with h | h
    · subst h
      refine ⟨"ValueError: Boundary type " ++ t ++ " is invalid", ?_⟩
      simp [mapBcTokens, mapBcToken_error_of_invalid t hbad]
    · obtain ⟨e, he⟩ := ih h
      cases hma : mapBcToken a with
      | error ea => exact ⟨ea, by simp [mapBcTokens, hma]⟩
      | ok va => exact ⟨e, by simp [mapBcTokens, hma, he]⟩

/-- C8: `get_boundary_conditions_and_root` maps each boundary-card token by
`1|black → vacuum`, `2|reflective → reflective`, `3|periodic → periodic`; when
the geometry source contains no boundary card the result defaults to the
all-vacuum list `["vacuum"]`; and whenever the resolved boundary card carries a
token outside the recognized set, the function fails with the
invalid-boundary-type `ValueError`. -/
theorem C8_boundary_condition_mapping :
    (mapBcToken "1" = .ok "vacuum" ∧ mapBcToken "black" = .ok "vacuum" ∧
     mapBcToken "2" = .ok "reflective" ∧ mapBcToken "reflective" = .ok "reflective" ∧
     mapBcToken "3" = .ok "periodic" ∧ mapBcToken "periodic" = .ok "periodic") ∧
    (∀ geo : List Line, (∀ l ∈ geo, matchesBcRegex l = false) →
      ∃ r, get_boundary_conditions_and_root geo = .ok (["vacuum"], r)) ∧
    (∀ (geo : List Line) (toks : Line) (bcs : List String) (r : String),
      (scanCards geo none none).1 = some toks →
      get_boundary_conditions_and_root geo = .ok (bcs, r) →
      mapBcTokens (toks.drop 2) = .ok bcs) ∧
    (∀ (geo : List Line) (toks : Line) (t : String),
      (scanCards geo none none).1 = some toks →
      t ∈ toks.drop 2 → validBcToken t = false →
      ∃ e, get_boundary_conditions_and_root geo = .error e) := by
  refine ⟨⟨rfl, rfl, rfl, rfl, rfl, rfl⟩, ?_, ?_, ?_⟩
  · intro geo h
    have hscan := scan_bc_of_no_match geo none none h
    cases hroot : (scanCards geo none none).2 with
    | none =>
      exact ⟨"0", by
        simp [get_boundary_conditions_and_root, hscan, hroot, bcFromCard, rootFromCard,
          Except.map]⟩
    | some toksr =>
      exact ⟨toksr.getD 2 "", by
        simp [get_boundary_conditions_and_root, hscan, hroot, bcFromCard, rootFromCard,
          Except.map]⟩
  · intro geo toks bcs r hscan hok
    simp only [get_boundary_conditions_and_root, hscan, bcFromCard] at hok
    cases hm : mapBcTokens (toks.drop 2) with
    | error e =>
      rw [hm] at hok
      simp [Except.map] at hok
    | ok vs =>
      rw [hm] at hok
      simp only [Except.map, Except.ok.injEq, Prod.mk.injEq] at hok
      rw [hok.1]
  · intro geo toks t hscan hmem hbad
    obtain ⟨e, he⟩ := mapBcTokens_error_of_mem (toks.drop 2) t hmem hbad
    exact ⟨e, by simp [get_boundary_conditions_and_root, hscan, he, bcFromCard, Except.map]⟩

theorem C8_boundary_condition_mapping_witness :
    (∃ r, get_boundary_conditions_and_root [["surf", "s1", "px", "1"]] = .ok (["vacuum"], r)) ∧
    (∃ e, get_boundary_conditions_and_root [["set", "bc", "1", "foo"]] = .error e) :=
  ⟨C8_boundary_condition_mapping.2.1 _ (by decide),
   C8_boundary_condition_mapping.2.2.2 [["set", "bc", "1", "foo"]]
     ["set", "bc", "1", "foo"] "foo" (by decide) (by decide) (by decide)⟩

/-- C10: when the geometry source contains no `set root` card,
`get_boundary_conditions_and_root` returns the root universe name `"0"`; when a
(unique) root card is present, it returns that card's third whitespace token. -/
theorem C10_root_universe_name :
    (∀ geo : List Line, (∀ l ∈ geo, matchesRootRegex l = false) →
      ∀ (bcs : List String) (r : String),
        get_boundary_conditions_and_root geo = .ok (bcs, r) → r = "0") ∧
    (∀ (l₁ : List Line) (toks : Line) (l₂ : List Line),
      matchesRootRegex toks = true →
      (∀ l ∈ l₁, matchesRootRegex l = false) →
      (∀ l ∈ l₂, matchesRootRegex l = false) →
      ∀ (bcs : List String) (r : String),
        get_boundary_conditions_and_root (l₁ ++ toks :: l₂) = .ok (bcs, r) →
        r = toks.getD 2 "") := by
  constructor
  · intro geo h bcs r hok
    have hscan := scan_root_of_no_match geo none none h
    simp only [get_boundary_conditions_and_root, hscan, rootFromCard] at hok
    cases hbc : (scanCards geo none none).1 with
    | none =>
      rw [hbc] at hok
      simp only [bcFromCard, Except.map, Except.ok.injEq, Prod.mk.injEq] at hok
      exact hok.2.symm
    | some tb =>
      rw [hbc] at hok
      simp only [bcFromCard] at hok
      cases hm : mapBcTokens (tb.drop 2) with
      | error e => rw [hm] at hok; simp [Except.map] at hok
      | ok vs =>
        rw [hm] at hok
        simp only [Except.map, Except.ok.injEq, Prod.mk.injEq] at hok
        exact hok.2.symm
  · intro l₁ toks l₂ htoks h₁ h₂ bcs r hok
    have hscan := scan_root_unique toks l₂ htoks h₂ l₁ none h₁
    simp only [get_boundary_conditions_and_root, hscan, rootFromCard] at hok
    cases hbc : (scanCards (l₁ ++ toks :: l₂) none none).1 with
    | none =>
      rw [hbc] at hok
      simp only [bcFromCard, Except.map, Except.ok.injEq, Prod.mk.injEq] at hok
      exact hok.2.symm
    | some tb =>
      rw [hbc] at hok
      simp only [bcFromCard] at hok
      cases hm : mapBcTokens (tb.drop 2) with
      | error e => rw [hm] at hok; simp [Except.map] at hok
      | ok vs =>
        rw [hm] at hok
        simp only [Except.map, Except.ok.injEq, Prod.mk.injEq] at hok
        exact hok.2.symm

theorem C10_root_universe_name_witness :
    ("0" = "0") ∧ ("u7" = (["set", "root", "u7"] : Line).getD 2 "") :=
  ⟨C10_root_universe_name.1 [] (by simp) ["vacuum"] "0" rfl,
   C10_root_universe_name.2 [] ["set", "root", "u7"] [] (by decide) (by simp) (by simp)
     ["vacuum"] "u7" rfl⟩

/-! ## Registry lemmas -/

theorem lookup_dictSet {α : Type} (l : List (String × α)) (k : String) (v : α) :
    List.lookup k (dictSet l k v) = some v := by
  induction l with
  | nil => simp [dictSet, List.lookup]
  | cons p rest ih =>
    rcases p with ⟨k', v'⟩
    by_cases h : k' = k
    · subst h
      simp [dictSet, List.lookup]
    · simp only [dictSet, h, if_false, List.lookup]
      have hbeq : (k == k') = false := by
        simp [Ne.symm h]
      simp [hbeq, ih]

theorem lookup_dictSet_ne {α : Type} (l : List (String × α)) (k k' : String) (v : α)
    (h : k' ≠ k) : List.lookup k' (dictSet l k v) = List.lookup k' l := by
  have hbeq : (k' == k) = false := beq_eq_false_iff_ne.mpr h
  induction l with
  | nil => simp [dictSet, List.lookup, hbeq]
  | cons p rest ih =>
    rcases p with ⟨k0, v0⟩
    by_cases h0 : k0 = k
    · subst h0
      simp [dictSet, List.lookup, hbeq]
    · simp only [dictSet, h0, if_false, List.lookup]
      cases hb0 : (k' == k0) <;> simp [hb0, ih]

theorem add_cell_preserves (st : GeoState) (u c : String) :
    (add_cell_name_to_universe st u c).surf_dict = st.surf_dict ∧
    (add_cell_name_to_universe st u c).cell_dict = st.cell_dict ∧
    (add_cell_name_to_universe st u c).mat_dict = st.mat_dict := by
  unfold add_cell_name_to_universe
  cases List.lookup u st.universe_to_cell_names_dict with
  | none => exact ⟨rfl, rfl, rfl⟩
  | some cells =>
    by_cases h : cells.isEmpty <;> simp [h]

theorem add_cell_universe_lookup_ne (st : GeoState) (u c x : String) (h : x ≠ u) :
    List.lookup x (add_cell_name_to_universe st u c).universe_dict =
      List.lookup x st.universe_dict := by
  unfold add_cell_name_to_universe
  cases List.lookup u st.universe_to_cell_names_dict with
  | none => exact lookup_dictSet_ne _ _ _ _ h
  | some cells =>
    by_cases hc : cells.isEmpty <;> simp [hc, lookup_dictSet_ne _ _ _ _ h]

theorem csgSurfLoop_universe_dict (ctx : GeoCtx) (ct : String) (names : List String) :
    ∀ (st : GeoState) (subs : List String) (m : List (String × String)),
      ((csgSurfLoop ctx ct names st subs m).1.universe_dict = st.universe_dict) ∧
      ((csgSurfLoop ctx ct names st subs m).1.universe_to_cell_names_dict =
        st.universe_to_cell_names_dict) := by
  induction names with
  | nil => intro st subs m; exact ⟨rfl, rfl⟩
  | cons name rest ih =>
    intro st subs m
    cases hl : List.lookup name st.surf_dict with
    | none => simp only [csgSurfLoop, hl]; exact ⟨by trivial, by trivial⟩
    | some entry =>
      cases entry with
      | sentinel s => simp only [csgSurfLoop, hl]; exact ⟨by trivial, by trivial⟩
      | single s => simp only [csgSurfLoop, hl]; exact ih _ _ _
      | subsurfs d =>
        cases he : _get_subsurf_region_expr (csgSubsurfStep ctx ct d) with
        | error e => simp only [csgSurfLoop, hl, he]; exact ⟨by trivial, by trivial⟩
        | ok expr => simp only [csgSurfLoop, hl, he]; exact ih _ _ _

theorem cellGenericCase_universe_dict (ctx : GeoCtx) (ct : String) (stF : GeoState)
    (uid : Nat) (cn : String) (fill : Option Nat) (tail : String) (names : List String) :
    ((cellGenericCase ctx ct stF uid cn fill tail names).1.universe_dict =
      stF.universe_dict) ∧
    ((cellGenericCase ctx ct stF uid cn fill tail names).1.universe_to_cell_names_dict =
      stF.universe_to_cell_names_dict) := by
  unfold cellGenericCase
  cases hres : csgSurfLoop ctx ct names stF [] [] with
  | mk stL res =>
    have hud := csgSurfLoop_universe_dict ctx ct names stF [] []
    rw [hres] at hud
    cases res with
    | error e => exact hud
    | ok pr => rcases pr with ⟨subs, m⟩; exact hud

theorem cellCsgPhase_universe_dict (ctx : GeoCtx) (ct : String) (stF : GeoState)
    (uid : Nat) (cn : String) (fill : Option Nat) (tail : String) :
    ((cellCsgPhase ctx ct stF uid cn fill tail).1.universe_dict = stF.universe_dict) ∧
    ((cellCsgPhase ctx ct stF uid cn fill tail).1.universe_to_cell_names_dict =
      stF.universe_to_cell_names_dict) := by
  by_cases h1 : ct = "material" ∧ (_strip_csg_operators tail).length = 1
  · cases hl : List.lookup ((_strip_csg_operators tail).headD "") stF.surf_dict with
    | none =>
      simp only [cellCsgPhase, if_pos h1, hl]
      exact ⟨by trivial, by trivial⟩
    | some entry =>
      by_cases h2 : entry = SurfEntry.sentinel "inf"
      · simp only [cellCsgPhase, if_pos h1, hl, if_pos h2]
        exact ⟨by trivial, by trivial⟩
      · simp only [cellCsgPhase, if_pos h1, hl, if_neg h2]
        exact cellGenericCase_universe_dict ctx ct stF uid cn fill tail _
  · simp only [cellCsgPhase, if_neg h1]
    exact cellGenericCase_universe_dict ctx ct stF uid cn fill tail _

/-! ## C1: partial registration on unresolved material -/

theorem fillResolve_material_none (ctx : GeoCtx) (st2 : GeoState) (toks : List String)
    (h : List.lookup (toks.getD 3 "") st2.mat_dict = none) :
    fillResolve ctx st2 toks "material" =
      (st2, .error ("KeyError: " ++ toks.getD 3 "")) := by
  unfold fillResolve
  rw [if_neg (by decide : ¬(("material" : String) = "outside")),
    if_pos (rfl : ("material" : String) = "material"), h]

/-- C1 counterexample: running `cell c1 u1 m1 -s1` with material `m1` absent
from the material table raises the unresolved-reference `KeyError`, but the
universe table and the universe-to-cell membership table have already been
mutated by the time of the failure, so partial registration is observable,
contradicting the claim that every registry is left unchanged. -/
theorem C1_unresolved_material_counterexample :
    missingMatRun.2 = .error "KeyError: m1" ∧
    missingMatRun.1.universe_to_cell_names_dict = [("u1", ["c1"])] ∧
    missingMatRun.1.universe_dict = [("u1", 0)] ∧
    stNoMat.universe_to_cell_names_dict = [] ∧
    stNoMat.universe_dict = [] := by
  refine ⟨?_, ?_, ?_, ?_, ?_⟩ <;> rfl

/-- C1, amended: for every material-fill cell card naming a material absent
from the resolved material table, `construct_openmc_cell` raises the
unresolved-reference error (`KeyError`) and leaves the surface table and the
cell table unchanged; however, the declaring universe's membership is recorded
(and a universe object allocated if needed) before the material lookup, so the
universe table and the universe-to-cell membership table carry exactly the
updates of `add_cell_name_to_universe` after the failure. -/
theorem C1_unresolved_material_partial_registration (ctx : GeoCtx) (st : GeoState)
    (toks : List String) (csg_tail : String)
    (hmat : List.lookup (toks.getD 3 "") st.mat_dict = none) :
    ((construct_openmc_cell ctx st toks csg_tail "material").1.surf_dict = st.surf_dict) ∧
    ((construct_openmc_cell ctx st toks csg_tail "material").1.cell_dict = st.cell_dict) ∧
    ((construct_openmc_cell ctx st toks csg_tail "material").1.universe_dict =
      (add_cell_name_to_universe st (toks.getD 2 "") (toks.getD 1 "")).universe_dict) ∧
    ((construct_openmc_cell ctx st toks csg_tail "material").1.universe_to_cell_names_dict =
      (add_cell_name_to_universe st (toks.getD 2 "") (toks.getD 1 "")).universe_to_cell_names_dict) ∧
    ∃ e, (construct_openmc_cell ctx st toks csg_tail "material").2 = Except.error e := by
  have hpres := add_cell_preserves st (toks.getD 2 "") (toks.getD 1 "")
  have hmat2 : List.lookup (toks.getD 3 "")
      ({ add_cell_name_to_universe st (toks.getD 2 "") (toks.getD 1 "") with
         next_uid :=
           (add_cell_name_to_universe st (toks.getD 2 "") (toks.getD 1 "")).next_uid + 1 } :
        GeoState).mat_dict = none := by
    show List.lookup (toks.getD 3 "")
      (add_cell_name_to_universe st (toks.getD 2 "") (toks.getD 1 "")).mat_dict = none
    rw [hpres.2.2]
    exact hmat
  have hmain : construct_openmc_cell ctx st toks csg_tail "material" =
      ({ add_cell_name_to_universe st (toks.getD 2 "") (toks.getD 1 "") with
         next_uid :=
           (add_cell_name_to_universe st (toks.getD 2 "") (toks.getD 1 "")).next_uid + 1 },
       Except.error ("KeyError: " ++ toks.getD 3 "")) := by
    unfold construct_openmc_cell
    rw [fillResolve_material_none ctx _ toks hmat2]
    rfl
  rw [hmain]
  exact ⟨hpres.1, hpres.2.1, rfl, rfl, ⟨_, rfl⟩⟩

theorem fillResolve_fill_new (ctx : GeoCtx) (st2 : GeoState) (toks : List String)
    (hnone : List.lookup (toks.getD 4 "") st2.universe_dict = none)
    (hroot : toks.getD 4 "" ≠ ctx.root_name) :
    fillResolve ctx st2 toks "fill" =
      ({ st2 with
          universe_dict := dictSet st2.universe_dict (toks.getD 4 "") st2.next_uid,
          next_uid := st2.next_uid + 1 }, .ok (some st2.next_uid)) := by
  unfold fillResolve
  rw [if_neg (by decide : ¬(("fill" : String) = "outside")),
    if_neg (by decide : ¬(("fill" : String) = "material")),
    if_pos (rfl : ("fill" : String) = "fill"),
    if_pos (⟨by rw [hnone]; rfl, hroot⟩ :
      (List.lookup (toks.getD 4 "") st2.universe_dict).isNone ∧
        toks.getD 4 "" ≠ ctx.root_name),
    lookup_dictSet]

theorem construct_cell_fill_registers (ctx : GeoCtx) (st : GeoState)
    (toks : List String) (tail : String)
    (hne : toks.getD 4 "" ≠ toks.getD 2 "")
    (hnone : List.lookup (toks.getD 4 "") st.universe_dict = none)
    (hroot : toks.getD 4 "" ≠ ctx.root_name) :
    List.lookup (toks.getD 4 "")
      ((construct_openmc_cell ctx st toks tail "fill").1).universe_dict =
      some ((add_cell_name_to_universe st (toks.getD 2 "") (toks.getD 1 "")).next_uid + 1) := by
  have hnone2 : List.lookup (toks.getD 4 "")
      ({ add_cell_name_to_universe st (toks.getD 2 "") (toks.getD 1 "") with
         next_uid :=
           (add_cell_name_to_universe st (toks.getD 2 "") (toks.getD 1 "")).next_uid + 1 } :
        GeoState).universe_dict = none := by
    show List.lookup (toks.getD 4 "")
      (add_cell_name_to_universe st (toks.getD 2 "") (toks.getD 1 "")).universe_dict = none
    rw [add_cell_universe_lookup_ne st _ _ _ hne]
    exact hnone
  unfold construct_openmc_cell
  rw [fillResolve_fill_new ctx _ toks hnone2 hroot]
  simp only [constructDispatch]
  rw [(cellCsgPhase_universe_dict ctx "fill" _ _ _ _ _).1]
  exact lookup_dictSet _ _ _

theorem C1_unresolved_material_partial_registration_witness :
    ((construct_openmc_cell ctxDefault stNoMat ["cell", "c1", "u1", "m1"] " -s1"
        "material").1.surf_dict = stNoMat.surf_dict) ∧
    ((construct_openmc_cell ctxDefault stNoMat ["cell", "c1", "u1", "m1"] " -s1"
        "material").1.cell_dict = stNoMat.cell_dict) ∧
    ((construct_openmc_cell ctxDefault stNoMat ["cell", "c1", "u1", "m1"] " -s1"
        "material").1.universe_dict =
      (add_cell_name_to_universe stNoMat "u1" "c1").universe_dict) ∧
    ((construct_openmc_cell ctxDefault stNoMat ["cell", "c1", "u1", "m1"] " -s1"
        "material").1.universe_to_cell_names_dict =
      (add_cell_name_to_universe stNoMat "u1" "c1").universe_to_cell_names_dict) ∧
    ∃ e, (construct_openmc_cell ctxDefault stNoMat ["cell", "c1", "u1", "m1"] " -s1"
        "material").2 = Except.error e :=
  C1_unresolved_material_partial_registration ctxDefault stNoMat
    ["cell", "c1", "u1", "m1"] " -s1" rfl

/-! ## C4: boundary types on outside cells -/

/-- C4: with the boundary card `set bc 2 2 1` resolved to the three entries
`[reflective, reflective, vacuum]` (first conjunct), an `outside` cell
referencing an X-, a Y- and a Z-plane leaves `surf_dict` completely unchanged:
every `boundary_type` stays at the default `"transmission"`, because the
`isinstance` axis checks receive the wrapper dict instead of the surface, so
`reflective`/`vacuum` are never assigned; the run still succeeds.  (With more
than 3 resolved entries the same branch silently does nothing rather than
raising.)  This contradicts the claimed reflective/vacuum assignment; the
intended behavior is visible in the `n_bcs == 1` branch, which does assign
(final conjunct). -/
theorem C4_outside_bc_eval :
    (bcFromCard (some ["set", "bc", "2", "2", "1"]) =
      .ok ["reflective", "reflective", "vacuum"]) ∧
    outsideRun.1.surf_dict = stOutside.surf_dict ∧
    (List.lookup "s1" outsideRun.1.surf_dict = some (.single surfX0) ∧
      surfX0.boundary_type = "transmission") ∧
    outsideRun.2 = .ok ⟨1, "c9", none, some " 1 3 5"⟩ ∧
    (construct_openmc_cell ctxDefault stOutside ["cell", "c9", "u0", "outside"]
        " s1 s2 s3" "outside").1.surf_dict =
      [("s1", .single { surfX0 with boundary_type := "vacuum" }),
       ("s2", .single { surfY0 with boundary_type := "vacuum" }),
       ("s3", .single { surfZ0 with boundary_type := "vacuum" })] := by
  refine ⟨?_, ?_, ⟨?_, ?_⟩, ?_, ?_⟩ <;> rfl

/-! ## C6: composite-surface sign tables and sign replacement -/

/-- C6: the 4-sub-surface sign table produces `{0,2}` positive and `{1,3}`
negative, and a leading `-` on the composite's name is replaced by the
synthesized parenthesized expression unchanged (first two conjuncts).  But for
6 sub-surfaces the axis test compares the sub-surface instance against the
plane class with `==`, which never holds, so no partition is selected and
Python raises `UnboundLocalError` (third conjunct); and a leading `+` on a
composite's name is never stripped by `_strip_csg_operators`, so the lookup of
the literal token `+F` raises `KeyError` before any complement replacement can
happen (fourth conjunct). -/
theorem C6_composite_region_eval :
    _get_subsurf_region_expr rectSubs = .ok "(+1 -2 +3 -4)" ∧
    rectRunMinus.2 = .ok ⟨1, "c", some 100, some " (+1 -2 +3 -4)"⟩ ∧
    _get_subsurf_region_expr hexSubs =
      .error "UnboundLocalError: local variable match_pos_hs referenced before assignment" ∧
    rectRunPlus.2 = .error "KeyError: +F" ∧
    hexRun.2 =
      .error "UnboundLocalError: local variable match_pos_hs referenced before assignment" := by
  refine ⟨?_, ?_, ?_, ?_, ?_⟩ <;> rfl

/-! ## C7: forward references to universes -/

/-- C7 counterexample: processing `cell c1 u0 fill A -s1` creates placeholder
universe object 2 for the forward-referenced universe `A` (the returned cell's
fill is that object), but after `A`'s first member cell `cell c2 A m1 -s1` is
parsed, the object registered under `A` is the fresh object 3, not the
placeholder: the registry replaces the object, so the earlier cell's fill
reference is stale. -/
theorem C7_forward_reference_counterexample :
    forwardStep1.2 = .ok ⟨1, "c1", some 2, some " -1"⟩ ∧
    List.lookup "A" forwardStep1.1.universe_dict = some 2 ∧
    forwardStep2.2 = .ok ⟨4, "c2", some 100, some " -1"⟩ ∧
    List.lookup "A" forwardStep2.1.universe_dict = some 3 ∧
    (2 : Nat) ≠ 3 := by
  refine ⟨?_, ?_, ?_, ?_, ?_⟩
  · rfl
  · rfl
  · rfl
  · rfl
  · decide

/-- C7, amended: a universe name first referenced as a fill target before any
of its member cells are parsed does not make translation fail; a placeholder
universe object is created and registered at first reference (first conjunct:
after the fill cell is processed, the name is registered whatever else
happens).  However the universe object registered under that name after its
first defining cell is added is a FRESH object, not the placeholder: the
creation guard of `add_cell_name_to_universe` consults the membership table
only, so it overwrites the placeholder (second conjunct). -/
theorem C7_forward_reference_placeholder :
    (∀ (ctx : GeoCtx) (st : GeoState) (toks : List String) (tail : String),
      toks.getD 4 "" ≠ toks.getD 2 "" →
      List.lookup (toks.getD 4 "") st.universe_dict = none →
      toks.getD 4 "" ≠ ctx.root_name →
      ∃ u, List.lookup (toks.getD 4 "")
        ((construct_openmc_cell ctx st toks tail "fill").1).universe_dict = some u) ∧
    (∀ (st : GeoState) (univ cell : String) (p : Nat),
      List.lookup univ st.universe_to_cell_names_dict = none →
      List.lookup univ st.universe_dict = some p →
      p ≠ st.next_uid →
      List.lookup univ (add_cell_name_to_universe st univ cell).universe_dict =
        some st.next_uid ∧
      (some st.next_uid : Option Nat) ≠ some p) := by
  constructor
  · intro ctx st toks tail hne hnone hroot
    exact ⟨_, construct_cell_fill_registers ctx st toks tail hne hnone hroot⟩
  · intro st univ cell p hmem hup hne
    constructor
    · unfold add_cell_name_to_universe
      rw [hmem]
      exact lookup_dictSet _ _ _
    · intro hcontra
      exact hne (Option.some_injective _ hcontra).symm

/-! ## C2 and C3: lattice reconstruction -/

/-- C2: the claim's own example card `lat L 1 0 0 2 2 10 A B C D` crashes: the
inline universe names are taken from `lattice_args[8:]` — an index computed
for the full card token list but applied to the argument list that excludes
the `lat L 1` head — so only `D` is collected, and reshaping 1 name to the 2x2
element count raises `ValueError` (first conjunct).  In the continuation-line
form the name array is assembled, reshaped to `lattice_elements = (Nx, Ny)`
(not `(Ny, Nx)` as claimed, indistinguishable at 2x2) and flipped along axis
0, so row 0 equals the source's last row; but the returned origin is
`(10, g1)` where `g1` is whatever uninitialized memory `np.empty(2)` held:
with `Nx = Ny`, `(Nx, Ny).index(Ny)` is 0, `origin[1]` is never written, and
the claimed origin `(10, 10)` is not produced (second conjunct, for every
garbage value `g1`). -/
theorem C2_lattice_example_eval :
    (∀ g0 g1 : PyFloat,
      get_lattice_univ_array latUnivDict latInlineGeo g0 g1 "1" latInlineArgs 0 =
        .error "ValueError: cannot reshape array") ∧
    (∀ g0 g1 : PyFloat,
      get_lattice_univ_array latUnivDict latMultiGeo g0 g1 "1" latMultiArgs 0 =
        .ok { lattice_origin := (⟨10, 1⟩, g1),
              lattice_pitch := (⟨10, 1⟩, ⟨10, 1⟩),
              lattice_universe_array := [[3, 4], [1, 2]] }) :=
  ⟨fun _ _ => rfl, fun _ _ => rfl⟩

/-- C3 counterexample: kind 6 is NOT handled as a square/rectangular lattice —
the anchored `(1|2|3)` match fails on `"6"`, so the function raises the
unsupported-kind error even on a well-formed card — while kind 12 does NOT
fail: both anchored matches succeed on the prefix `1`, so a kind-12 card is
processed as a square lattice and returns successfully.  This refutes
"handles kinds 1, 6 and 11 ... and fails exactly for the hexagonal kinds and
kinds 2, 3, 7, 8, 12, 13". -/
theorem C3_lattice_kind_counterexample :
    (∀ g0 g1 : PyFloat,
      get_lattice_univ_array latUnivDict latMultiGeo g0 g1 "6" latMultiArgs 0 =
        .error "ValueError: Type 6 lattices are currently unsupported") ∧
    (∀ g0 g1 : PyFloat,
      get_lattice_univ_array latUnivDict latMultiGeo g0 g1 "12" latMultiArgs 0 =
        .ok { lattice_origin := (⟨10, 1⟩, g1),
              lattice_pitch := (⟨10, 1⟩, ⟨10, 1⟩),
              lattice_universe_array := [[3, 4], [1, 2]] }) :=
  ⟨fun _ _ => rfl, fun _ _ => rfl⟩

/-- C3, amended: on a well-formed square-style card,
`get_lattice_univ_array` treats exactly the kind strings beginning with the
digit 1 — kinds 1 and 11, but also 12 and 13 because `re.match` is an anchored
prefix match — as square/rectangular lattices; kinds 2 and 3 pass the first
dispatch and fail with the unsupported-lattice-type error at the re-centering
step; kinds 6, 7 and 8 fail immediately at the first dispatch with the
unsupported-kind error. -/
theorem C3_lattice_kind_dispatch :
    (∀ g0 g1 : PyFloat,
      get_lattice_univ_array latUnivDict latMultiGeo g0 g1 "1" latMultiArgs 0 =
        .ok { lattice_origin := (⟨10, 1⟩, g1),
              lattice_pitch := (⟨10, 1⟩, ⟨10, 1⟩),
              lattice_universe_array := [[3, 4], [1, 2]] } ∧
      get_lattice_univ_array latUnivDict latMultiGeo g0 g1 "11" latMultiArgs 0 =
        .ok { lattice_origin := (⟨10, 1⟩, g1),
              lattice_pitch := (⟨10, 1⟩, ⟨10, 1⟩),
              lattice_universe_array := [[3, 4], [1, 2]] } ∧
      get_lattice_univ_array latUnivDict latMultiGeo g0 g1 "13" latMultiArgs 0 =
        .ok { lattice_origin := (⟨10, 1⟩, g1),
              lattice_pitch := (⟨10, 1⟩, ⟨10, 1⟩),
              lattice_universe_array := [[3, 4], [1, 2]] }) ∧
    (∀ g0 g1 : PyFloat,
      get_lattice_univ_array latUnivDict latMultiGeo g0 g1 "2" latMultiArgs 0 =
        .error "ValueError: Unsupported lattice type: 2" ∧
      get_lattice_univ_array latUnivDict latMultiGeo g0 g1 "3" latMultiArgs 0 =
        .error "ValueError: Unsupported lattice type: 3") ∧
    (∀ g0 g1 : PyFloat,
      get_lattice_univ_array latUnivDict latMultiGeo g0 g1 "7" latMultiArgs 0 =
        .error "ValueError: Type 7 lattices are currently unsupported" ∧
      get_lattice_univ_array latUnivDict latMultiGeo g0 g1 "8" latMultiArgs 0 =
        .error "ValueError: Type 8 lattices are currently unsupported") :=
  ⟨fun _ _ => ⟨rfl, rfl, rfl⟩, fun _ _ => ⟨rfl, rfl⟩, fun _ _ => ⟨rfl, rfl⟩⟩

/-- C5: for the 3-point plane card with points `(1,0,0)`, `(0,1,0)`,
`(0,0,1)`, the cross product of the edge vectors is the normal `(1,1,1)` and
the dot product against the negated first point is `-1`, so the intended
implicit-form coefficients are proportional to `(1,1,1,-1)` (first two
conjuncts); but the surface builder itself always raises `IndexError` in this
branch, because `D = np.dot(n, n0)[0]` indexes the NumPy scalar returned by
the dot product of two 1-D arrays (third and fourth conjuncts): no coefficient
list is ever produced. -/
theorem C5_plane_three_points_eval :
    (v3cross
        (v3sub (PyFloat.ofInt 0, PyFloat.ofInt 1, PyFloat.ofInt 0)
          (PyFloat.ofInt 1, PyFloat.ofInt 0, PyFloat.ofInt 0))
        (v3sub (PyFloat.ofInt 0, PyFloat.ofInt 0, PyFloat.ofInt 1)
          (PyFloat.ofInt 1, PyFloat.ofInt 0, PyFloat.ofInt 0)) =
      (PyFloat.ofInt 1, PyFloat.ofInt 1, PyFloat.ofInt 1)) ∧
    (v3dot (PyFloat.ofInt 1, PyFloat.ofInt 1, PyFloat.ofInt 1)
        (v3neg (PyFloat.ofInt 1, PyFloat.ofInt 0, PyFloat.ofInt 0)) =
      PyFloat.ofInt (-1)) ∧
    _get_openmc_surface_params "plane" planePoints9 =
      .error "IndexError: invalid index to scalar variable" ∧
    (construct_and_store_openmc_surface stNoMat
        ["surf", "p1", "plane", "1", "0", "0", "0", "1", "0", "0", "0", "1"]).2 =
      .error "IndexError: invalid index to scalar variable" := by
  refine ⟨?_, ?_, ?_, ?_⟩ <;> rfl

/-- C9: the id of a surface object lacking one is derived as the integer parse
of the name when the name is an integer literal (deterministic, first two
conjuncts), but for every other name the fallback
`int.from_bytes(surf_name.encode(), 'litle')` raises `ValueError` — the
byteorder is misspelled — instead of computing the stable little-endian hash
(third conjunct).  A composite surface card with a non-integer name therefore
aborts, while an integer name succeeds (last two conjuncts). -/
theorem C9_surface_id_derivation_eval :
    derive_surface_id "12" = .ok 12 ∧
    derive_surface_id "-3" = .ok (-3) ∧
    derive_surface_id "fuel" =
      .error "ValueError: byteorder must be either little or big" ∧
    (construct_and_store_openmc_surface stNoMat
        ["surf", "fuel", "sqc", "0", "0", "5"]).2 =
      .error "ValueError: byteorder must be either little or big" ∧
    (construct_and_store_openmc_surface stNoMat
        ["surf", "12", "sqc", "0", "0", "5"]).2 = .ok () := by
  refine ⟨?_, ?_, ?_, ?_, ?_⟩ <;> rfl

theorem C7_forward_reference_placeholder_witness :
    (∃ u, List.lookup "A"
      ((construct_openmc_cell ctxDefault stForward ["cell", "c1", "u0", "fill", "A"]
        " -s1" "fill").1).universe_dict = some u) ∧
    (List.lookup "A" (add_cell_name_to_universe forwardStep1.1 "A" "c2").universe_dict =
        some forwardStep1.1.next_uid ∧
      (some forwardStep1.1.next_uid : Option Nat) ≠ some 2) :=
  ⟨C7_forward_reference_placeholder.1 ctxDefault stForward
      ["cell", "c1", "u0", "fill", "A"] " -s1" (by decide) rfl (by decide),
   C7_forward_reference_placeholder.2 forwardStep1.1 "A" "c2" 2 rfl rfl (by decide)⟩

end SerpentHelpers
